import Mathlib

/-!
Verification of the rover energy-model and scheduling repository.

The definitions below are shallow embeddings of the Python sources:
`models/rover_config.py`, `models/energy_model.py`, `sim/simulate_mission.py`
and `simple_validation.py`.  Exact real-number quantities replace Python
floats: ℚ for the battery/scheduling arithmetic, ℝ for the physics formulas
that involve trigonometric functions.  Fallible Python functions (those that
raise) are embedded as `Option`-returning functions.
-/

/-! ### RoverConfig (`models/rover_config.py`)

Class-level constants become plain definitions.  `ENERGY_RESERVE_FRACTION`
embeds the source constant `ENERGY_RESERVE_RATIO` (renamed for this
development). -/

def GRAVITY_MARS : ℝ := 3.71

def MASS : ℝ := 899.0

def BATTERY_CAPACITY : ℚ := 4224 / 100

def ROLLING_RESISTANCE_COEFF : ℝ := 0.15

def MOTOR_EFFICIENCY : ℝ := 0.85

def DRIVETRAIN_EFFICIENCY : ℝ := 0.90

def ENERGY_RESERVE_FRACTION : ℚ := 20 / 100

def CRITICAL_ENERGY_THRESHOLD : ℚ := 10 / 100

/-- `RoverConfig.TASK_POWER`: the task-type → nominal power (W) mapping.
A missing key is `none` (a Python `KeyError` / membership-test failure). -/
def TASK_POWER (t : String) : Option ℚ :=
  if t = ("navigation") then some 50
  else if t = ("sample_collection") then some 80
  else if t = ("drilling") then some 120
  else if t = ("imaging") then some 30
  else if t = ("spectrometry") then some 45
  else if t = ("communication") then some 25
  else if t = ("idle") then some 10
  else none

/-- `RoverConfig.get_available_energy`:
`max(0, capacity*level - capacity*reserve)`. -/
def get_available_energy (current_battery_level : ℚ) : ℚ :=
  max 0 (BATTERY_CAPACITY * current_battery_level -
    BATTERY_CAPACITY * ENERGY_RESERVE_FRACTION)

/-- `RoverConfig.is_critical_energy`: `level <= CRITICAL_ENERGY_THRESHOLD`. -/
def is_critical_energy (current_battery_level : ℚ) : Prop :=
  current_battery_level ≤ CRITICAL_ENERGY_THRESHOLD

instance (b : ℚ) : Decidable (is_critical_energy b) :=
  inferInstanceAs (Decidable (b ≤ CRITICAL_ENERGY_THRESHOLD))

/-! ### EnergyModel task-energy computation (`models/energy_model.py`)

`calculate_task_energy` raises `ValueError` on an unknown task type and
otherwise returns `power * duration / 1000`; it performs no other input
validation. -/

def calculate_task_energy (task_type : String) (duration_hours : ℚ) : Option ℚ :=
  match TASK_POWER task_type with
  | none => none
  | some power_watts => some (power_watts * duration_hours / 1000)

/-! ### MissionSimulator task execution (`sim/simulate_mission.py`)

A mission task is reduced to the fields the execution engine reads: an
identifier and the cached `energy_cost`.  The per-task outcome plus the
battery level after processing (the `battery_level_after` field of the
mission log) form a `LogEntry`. -/

structure MTask where
  tid : ℕ
  energy_cost : ℚ
deriving DecidableEq

inductive TStatus where
  | completed : TStatus
  | deferred : TStatus
deriving DecidableEq

structure LogEntry where
  task : MTask
  status : TStatus
  battery_after : ℚ
deriving DecidableEq

/-- `MissionSimulator.can_execute_task`: false in the critical-energy state,
otherwise the cached cost must fit in the available energy. -/
def can_execute_task (battery : ℚ) (t : MTask) : Prop :=
  ¬ is_critical_energy battery ∧ t.energy_cost ≤ get_available_energy battery

instance (b : ℚ) (t : MTask) : Decidable (can_execute_task b t) :=
  inferInstanceAs (Decidable (¬ _ ∧ _ ≤ _))

/-- The task loop of `MissionSimulator.run_mission_simulation`: before each
task the critical-energy state is checked; if critical, every remaining task
is deferred in bulk and the loop stops.  Otherwise `execute_task` either
completes the task (deducting `cost / BATTERY_CAPACITY` from the battery
level) or defers it and continues.  Returns the final battery level and the
per-task log in processing order. -/
def run_tasks (battery : ℚ) : List MTask → ℚ × List LogEntry
  | [] => (battery, [])
  | t :: ts =>
    if is_critical_energy battery then
      (battery, (t :: ts).map (fun u => ⟨u, TStatus.deferred, battery⟩))
    else if can_execute_task battery t then
      let b2 := battery - t.energy_cost / BATTERY_CAPACITY
      let r := run_tasks b2 ts
      (r.1, ⟨t, TStatus.completed, b2⟩ :: r.2)
    else
      let r := run_tasks battery ts
      (r.1, ⟨t, TStatus.deferred, battery⟩ :: r.2)

/-- Number of tasks the engine marks completed. -/
def completed_count (battery : ℚ) (ts : List MTask) : ℕ :=
  (run_tasks battery ts).2.countP (fun e => decide (e.status = TStatus.completed))

/-- Auxiliary: `drop` commutes with `map`. -/
theorem drop_map_comm {α β : Type} (f : α → β) :
    ∀ (n : ℕ) (l : List α), (l.map f).drop n = (l.drop n).map f := by
  intro n
  induction n with
  | zero => intro l; rfl
  | succ n ih =>
    intro l
    cases l with
    | nil => rfl
    | cons a l =>
      simp only [List.map_cons, List.drop_succ_cons]
      exact ih l

/-- Claim C1: in every mission run, whenever the battery level is at or below
the critical-energy threshold as a task is about to be processed (in
particular the first such time), every remaining not-yet-processed task is
marked Deferred in bulk, so no task at or after that point is ever marked
Completed.  The battery level before processing task `i` is the final
battery of the run restricted to the first `i` tasks. -/
theorem mission_halts_on_critical (b : ℚ) (ts : List MTask) (i : ℕ)
    (h : (run_tasks b (ts.take i)).1 ≤ CRITICAL_ENERGY_THRESHOLD) :
    (run_tasks b ts).2.drop i =
      (ts.drop i).map
        (fun u => ⟨u, TStatus.deferred, (run_tasks b (ts.take i)).1⟩) := by
  induction ts generalizing b i with
  | nil =>
    simp [run_tasks]
  | cons t ts ih =>
    cases i with
    | zero =>
      simp only [List.take_zero, run_tasks] at h
      have hc : is_critical_energy b := h
      simp only [List.take_zero, List.drop_zero, run_tasks, if_pos hc]
    | succ n =>
      simp only [List.take_succ_cons] at h ⊢
      by_cases hcrit : is_critical_energy b
      · simp only [run_tasks, if_pos hcrit] at h ⊢
        rw [drop_map_comm, List.drop_succ_cons]
      · by_cases hexec : can_execute_task b t
        · simp only [run_tasks, if_neg hcrit, if_pos hexec] at h ⊢
          rw [List.drop_succ_cons]
          exact ih _ n h
        · simp only [run_tasks, if_neg hcrit, if_neg hexec] at h ⊢
          rw [List.drop_succ_cons]
          exact ih _ n h

/-- Witness for `mission_halts_on_critical` at battery level 1/10 (exactly
critical) with one remaining task, checked at position 0. -/
theorem mission_halts_on_critical_witness :
    (run_tasks (1/10) (([⟨0, 1⟩] : List MTask).take 0)).1 ≤
        CRITICAL_ENERGY_THRESHOLD ∧
      (run_tasks (1/10) ([⟨0, 1⟩] : List MTask)).2.drop 0 =
        (([⟨0, 1⟩] : List MTask).drop 0).map
          (fun u =>
            ⟨u, TStatus.deferred,
              (run_tasks (1/10) (([⟨0, 1⟩] : List MTask).take 0)).1⟩) :=
  ⟨by norm_num [run_tasks, CRITICAL_ENERGY_THRESHOLD],
    mission_halts_on_critical (1/10) [⟨0, 1⟩] 0
      (by norm_num [run_tasks, CRITICAL_ENERGY_THRESHOLD])⟩

/-- Shared arithmetic fact about `execute_task`: a task whose strictly
positive cost passes the available-energy check leaves, after the deduction
`cost / BATTERY_CAPACITY`, a battery level of at least the reserve
fraction. -/
theorem reserve_after_execution (b c : ℚ) (hc : 0 < c)
    (hle : c ≤ get_available_energy b) :
    ENERGY_RESERVE_FRACTION ≤ b - c / BATTERY_CAPACITY := by
  simp only [get_available_energy, BATTERY_CAPACITY, ENERGY_RESERVE_FRACTION] at hle ⊢
  rcases le_or_lt (4224 / 100 * b - 4224 / 100 * (20 / 100)) 0 with h0 | h0
  · rw [max_eq_left h0] at hle
    linarith
  · rw [max_eq_right h0.le] at hle
    linarith

/-- Claim C10: every task with strictly positive cached energy cost that the
execution engine marks Completed leaves the battery level, immediately after
the energy deduction, at or above the configured reserve fraction. -/
theorem completed_task_keeps_reserve (b : ℚ) (ts : List MTask) (e : LogEntry)
    (he : e ∈ (run_tasks b ts).2) (hst : e.status = TStatus.completed)
    (hpos : 0 < e.task.energy_cost) :
    ENERGY_RESERVE_FRACTION ≤ e.battery_after := by
  induction ts generalizing b with
  | nil => simp [run_tasks] at he
  | cons t ts ih =>
    by_cases hcrit : is_critical_energy b
    · simp only [run_tasks, if_pos hcrit, List.mem_map] at he
      obtain ⟨u, -, rfl⟩ := he
      simp at hst
    · by_cases hexec : can_execute_task b t
      · simp only [run_tasks, if_neg hcrit, if_pos hexec, List.mem_cons] at he
        rcases he with rfl | he
        · exact reserve_after_execution b t.energy_cost hpos hexec.2
        · exact ih _ he
      · simp only [run_tasks, if_neg hcrit, if_neg hexec, List.mem_cons] at he
        rcases he with rfl | he
        · simp at hst
        · exact ih _ he

/-- Witness for `completed_task_keeps_reserve`: with a full battery and one
task of cost 1 kWh, the task completes and leaves the battery at
`1 - 1 / BATTERY_CAPACITY`, which is above the 20% reserve. -/
theorem completed_task_keeps_reserve_witness :
    ENERGY_RESERVE_FRACTION ≤
      ((⟨⟨0, 1⟩, TStatus.completed, 1 - 1 / BATTERY_CAPACITY⟩ : LogEntry)).battery_after :=
  completed_task_keeps_reserve 1 [⟨0, 1⟩] _
    (by norm_num [run_tasks, is_critical_energy, can_execute_task,
      get_available_energy, CRITICAL_ENERGY_THRESHOLD, BATTERY_CAPACITY,
      ENERGY_RESERVE_FRACTION, max_def])
    rfl (by norm_num)

/-- `get_available_energy` is monotone in the battery level. -/
theorem get_available_energy_mono {b b' : ℚ} (h : b ≤ b') :
    get_available_energy b ≤ get_available_energy b' := by
  unfold get_available_energy
  exact max_le_max le_rfl
    (sub_le_sub_right
      (mul_le_mul_of_nonneg_left h (by norm_num [BATTERY_CAPACITY])) _)

/-- Executing a feasible task of non-negative cost from a non-critical
battery level leaves a non-critical battery level. -/
theorem noncritical_after_execution (b c : ℚ)
    (hb : CRITICAL_ENERGY_THRESHOLD < b) (h0 : 0 ≤ c)
    (hle : c ≤ get_available_energy b) :
    CRITICAL_ENERGY_THRESHOLD < b - c / BATTERY_CAPACITY := by
  rcases h0.eq_or_lt with rfl | hpos
  · simpa using hb
  · have := reserve_after_execution b c hpos hle
    have hRT : CRITICAL_ENERGY_THRESHOLD < ENERGY_RESERVE_FRACTION := by
      norm_num [CRITICAL_ENERGY_THRESHOLD, ENERGY_RESERVE_FRACTION]
    linarith

/-- In the critical-energy state, the engine completes no task at all. -/
theorem completed_count_zero_of_critical (b : ℚ) (ts : List MTask)
    (h : b ≤ CRITICAL_ENERGY_THRESHOLD) : completed_count b ts = 0 := by
  have hc : is_critical_energy b := h
  cases ts with
  | nil => simp [completed_count, run_tasks]
  | cons t ts =>
    simp [completed_count, run_tasks, if_pos hc, List.countP_eq_zero]

/-- If every task in the list costs more than the currently available
energy, a non-critical run completes none of them. -/
theorem completed_count_zero_of_infeasible (b : ℚ) (ts : List MTask)
    (hb : CRITICAL_ENERGY_THRESHOLD < b)
    (hall : ∀ t ∈ ts, get_available_energy b < t.energy_cost) :
    completed_count b ts = 0 := by
  induction ts with
  | nil => simp [completed_count, run_tasks]
  | cons t ts ih =>
    have hcrit : ¬ is_critical_energy b := not_le.mpr hb
    have hexec : ¬ can_execute_task b t := fun hca =>
      absurd hca.2 (not_le.mpr (hall t (List.mem_cons_self t ts)))
    have htail := ih fun u hu => hall u (List.mem_cons_of_mem t hu)
    simp only [completed_count, run_tasks, if_neg hcrit, if_neg hexec,
      List.countP_cons] at htail ⊢
    simpa using htail

/-- Monotonicity of the completed-task count in the battery level, for task
sequences ordered ascending by energy cost, above the critical threshold. -/
theorem completed_count_mono_aux :
    ∀ ts : List MTask,
      ts.Sorted (fun t u => t.energy_cost ≤ u.energy_cost) →
      (∀ t ∈ ts, 0 ≤ t.energy_cost) →
      ∀ b b' : ℚ, CRITICAL_ENERGY_THRESHOLD < b → b ≤ b' →
        completed_count b ts ≤ completed_count b' ts := by
  intro ts
  induction ts with
  | nil => intro _ _ b b' _ _; simp [completed_count, run_tasks]
  | cons t ts ih =>
    intro hs hc b b' hb hbb'
    have hb' : CRITICAL_ENERGY_THRESHOLD < b' := lt_of_lt_of_le hb hbb'
    have hcrit : ¬ is_critical_energy b := not_le.mpr hb
    have hcrit' : ¬ is_critical_energy b' := not_le.mpr hb'
    have havail := get_available_energy_mono hbb'
    by_cases hex : can_execute_task b t
    · have hex' : can_execute_task b' t := ⟨hcrit', le_trans hex.2 havail⟩
      have h0 : 0 ≤ t.energy_cost := hc t (List.mem_cons_self t ts)
      have hb2 := noncritical_after_execution b t.energy_cost hb h0 hex.2
      have hb2le : b - t.energy_cost / BATTERY_CAPACITY ≤
          b' - t.energy_cost / BATTERY_CAPACITY := by linarith
      have htail := ih hs.of_cons
        (fun u hu => hc u (List.mem_cons_of_mem t hu)) _ _ hb2 hb2le
      simp only [completed_count, run_tasks, if_neg hcrit, if_neg hcrit',
        if_pos hex, if_pos hex', List.countP_cons] at htail ⊢
      simpa using htail
    · by_cases hex' : can_execute_task b' t
      · have hzero : completed_count b (t :: ts) = 0 := by
          apply completed_count_zero_of_infeasible b (t :: ts) hb
          intro u hu
          have hlt : get_available_energy b < t.energy_cost :=
            lt_of_not_le fun hle => hex ⟨hcrit, hle⟩
          rcases List.mem_cons.mp hu with rfl | hu
          · exact hlt
          · exact lt_of_lt_of_le hlt (List.rel_of_sorted_cons hs u hu)
        rw [hzero]
        exact Nat.zero_le _
      · have htail := ih hs.of_cons
          (fun u hu => hc u (List.mem_cons_of_mem t hu)) b b' hb hbb'
        simp only [completed_count, run_tasks, if_neg hcrit, if_neg hcrit',
          if_neg hex, if_neg hex', List.countP_cons] at htail ⊢
        simpa using htail

/-- Claim C2, corrected: the completed-task count of the greedy engine is
not monotone in the initial battery level for arbitrary orderings (see
`completed_count_not_monotone`); it is monotone for task sequences ordered
ascending by energy cost (the EnergyGreedy ordering) with non-negative
costs, for initial levels at or above the critical threshold. -/
theorem completed_count_mono_ascending (ts : List MTask) (b b' : ℚ)
    (hs : ts.Sorted (fun t u => t.energy_cost ≤ u.energy_cost))
    (hc : ∀ t ∈ ts, 0 ≤ t.energy_cost)
    (h1 : CRITICAL_ENERGY_THRESHOLD ≤ b) (h2 : b ≤ b') :
    completed_count b ts ≤ completed_count b' ts := by
  rcases h1.lt_or_eq with hlt | heq
  · exact completed_count_mono_aux ts hs hc b b' hlt h2
  · rw [completed_count_zero_of_critical b ts heq.symm.le]
    exact Nat.zero_le _

/-- Counterexample to claim C2 as stated: with tasks of costs
10, 1, 1, 1 kWh in that fixed order, the battery level 727/1760 ≈ 0.413
(available energy 9 kWh) completes three tasks, while the strictly higher
level 1153/2640 ≈ 0.437 (available energy 10 kWh) completes the expensive
first task, exhausts the available energy, and completes only one: raising
the initial battery level decreases the completed-task count. -/
theorem completed_count_not_monotone :
    (727/1760 : ℚ) < 1153/2640 ∧
      CRITICAL_ENERGY_THRESHOLD ≤ (727/1760 : ℚ) ∧
      completed_count (1153/2640) [⟨0, 10⟩, ⟨1, 1⟩, ⟨2, 1⟩, ⟨3, 1⟩] <
        completed_count (727/1760) [⟨0, 10⟩, ⟨1, 1⟩, ⟨2, 1⟩, ⟨3, 1⟩] := by
  refine ⟨by norm_num, by norm_num [CRITICAL_ENERGY_THRESHOLD], ?_⟩
  norm_num [completed_count, run_tasks, is_critical_energy, can_execute_task,
    get_available_energy, CRITICAL_ENERGY_THRESHOLD, BATTERY_CAPACITY,
    ENERGY_RESERVE_FRACTION, max_def, List.countP_cons]
  decide

/-- Witness for `completed_count_mono_ascending` on a singleton task list
with levels 1/2 ≤ 1. -/
theorem completed_count_mono_ascending_witness :
    completed_count (1/2) [⟨0, 1⟩] ≤ completed_count 1 [⟨0, 1⟩] :=
  completed_count_mono_ascending [⟨0, 1⟩] (1/2) 1
    (List.sorted_singleton _)
    (by intro t ht; rw [List.mem_singleton] at ht; subst ht; norm_num)
    (by norm_num [CRITICAL_ENERGY_THRESHOLD]) (by norm_num)

/-! ### SimpleValidator (`simple_validation.py`)

The benchmark harness's task record and constants.  `reserve_fraction`
embeds the source constant `reserve_ratio` (renamed for this development).
-/

structure VTask where
  duration : ℚ
  urgency : ℚ
  reward : ℚ
  power : ℚ
  energy : ℚ
deriving DecidableEq

def battery_capacity : ℚ := 4224 / 100

def terrain_energy : ℚ := 61 / 1000

def reserve_fraction : ℚ := 20 / 100

/-- The usable-energy computation shared by
`SimpleValidator.simulate_task_execution` and
`SimpleValidator.generate_random_scenario` (the two functions repeat these
four lines verbatim): available energy is the battery energy minus the fixed
terrain energy, and the reserve is a fraction of that available energy. -/
def usable_energy (energy_level : ℚ) : ℚ :=
  let total_energy := battery_capacity * energy_level
  let available_energy := total_energy - terrain_energy
  let reserve_energy := available_energy * reserve_fraction
  max 0 (available_energy - reserve_energy)

/-- The task loop of `SimpleValidator.simulate_task_execution`: completes a
task iff its energy fits in the remaining usable energy, decrementing the
budget; accumulates completed tasks, their energy, and their reward. -/
def exec_greedy : ℚ → List VTask → List VTask × ℚ × ℚ
  | _, [] => ([], 0, 0)
  | u, t :: ts =>
    if t.energy ≤ u then
      let r := exec_greedy (u - t.energy) ts
      (t :: r.1, t.energy + r.2.1, t.reward + r.2.2)
    else
      exec_greedy u ts

/-- `SimpleValidator.simulate_task_execution`: returns the completed tasks,
the total energy used (terrain energy plus completed task energy) and the
total reward. -/
def simulate_task_execution (ordered_tasks : List VTask) (energy_level : ℚ) :
    List VTask × ℚ × ℚ :=
  let r := exec_greedy (usable_energy energy_level) ordered_tasks
  (r.1, terrain_energy + r.2.1, r.2.2)

/-- Modelled from the amended claim's words: greedy selection against a
fixed energy budget — a task is selected iff its energy cost is at most the
remaining budget, and selecting it decrements the budget by that cost. -/
def rule_feasible_select : ℚ → List VTask → List VTask
  | _, [] => []
  | u, t :: ts =>
    if t.energy ≤ u then t :: rule_feasible_select (u - t.energy) ts
    else rule_feasible_select u ts

/-- Claim C3, corrected: the benchmark harness decides feasibility by greedy
budget selection with initial budget `usable_energy level` — which subtracts
the fixed terrain energy and takes the reserve as a fraction of the
post-terrain available energy (not of capacity, unlike §4.3 step 3) — and
records total energy = terrain energy + completed task energy and total
reward = sum of completed rewards. -/
theorem harness_feasibility_rule (ordered : List VTask) (level : ℚ) :
    (simulate_task_execution ordered level).1 =
        rule_feasible_select (usable_energy level) ordered ∧
      (simulate_task_execution ordered level).2.1 =
        terrain_energy +
          (((simulate_task_execution ordered level).1).map
            (fun t => t.energy)).sum ∧
      (simulate_task_execution ordered level).2.2 =
        (((simulate_task_execution ordered level).1).map
          (fun t => t.reward)).sum := by
  have key : ∀ (ts : List VTask) (u : ℚ),
      (exec_greedy u ts).1 = rule_feasible_select u ts ∧
        (exec_greedy u ts).2.1 =
          (((exec_greedy u ts).1).map (fun t => t.energy)).sum ∧
        (exec_greedy u ts).2.2 =
          (((exec_greedy u ts).1).map (fun t => t.reward)).sum := by
    intro ts
    induction ts with
    | nil => intro u; simp [exec_greedy, rule_feasible_select]
    | cons t ts ih =>
      intro u
      by_cases h : t.energy ≤ u
      · obtain ⟨h1, h2, h3⟩ := ih (u - t.energy)
        simp only [exec_greedy, rule_feasible_select, if_pos h]
        simp [h1, h2, h3]
      · simp only [exec_greedy, rule_feasible_select, if_neg h]
        exact ih u
  obtain ⟨h1, h2, h3⟩ := key ordered (usable_energy level)
  simp only [simulate_task_execution]
  exact ⟨h1, by simp [h2], by simp [h3]⟩

/-- Counterexample to claim C3 as stated: a single task of 33.75 kWh at
battery level 1.0 is feasible under the engine's §4.3 rule (available energy
33.792 kWh, level not critical) but the benchmark harness completes nothing
(its usable energy is (42.24 − 0.061)·0.8 = 33.7432 kWh). -/
theorem harness_rule_differs_from_engine :
    (simulate_task_execution [⟨1, 1, 1, 1, 135/4⟩] 1).1 = [] ∧
      (135/4 : ℚ) ≤ get_available_energy 1 ∧
      ¬ is_critical_energy 1 := by
  refine ⟨?_, ?_, ?_⟩
  · norm_num [simulate_task_execution, exec_greedy, usable_energy,
      battery_capacity, terrain_energy, reserve_fraction, max_def]
  · norm_num [get_available_energy, BATTERY_CAPACITY,
      ENERGY_RESERVE_FRACTION, max_def]
  · norm_num [is_critical_energy, CRITICAL_ENERGY_THRESHOLD]

/-- `SimpleValidator.our_prioritization_scheduler`'s per-task cost: the full
five-term composite cost. -/
def priority_cost (t : VTask) : ℚ :=
  let energy_cost := 1 * t.energy
  let urgency_factor := (1/2) * (1 / max t.urgency (1/10))
  let reward_factor := (-2) * t.reward
  let energy_efficiency := t.reward / max t.energy (1/1000)
  let efficiency_bonus := (-(1/2)) * energy_efficiency
  let time_sensitivity_bonus : ℚ :=
    if 8 < t.urgency then -1 else if t.urgency < 3 then 1/2 else 0
  energy_cost + urgency_factor + reward_factor + efficiency_bonus +
    time_sensitivity_bonus

/-- Comparison by composite cost.  The source stable-sorts the
(priority, task) pairs ascending by priority; an insertion sort under this
relation is exactly such a stable ascending sort. -/
def costLE (a b : VTask) : Prop := priority_cost a ≤ priority_cost b

instance : DecidableRel costLE := fun a b =>
  inferInstanceAs (Decidable (priority_cost a ≤ priority_cost b))

instance : IsTotal VTask costLE :=
  ⟨fun a b => le_total (priority_cost a) (priority_cost b)⟩

instance : IsTrans VTask costLE := ⟨fun _ _ _ h1 h2 => le_trans h1 h2⟩

/-- `SimpleValidator.our_prioritization_scheduler`. -/
def our_prioritization_scheduler (tasks : List VTask) : List VTask :=
  List.insertionSort costLE tasks

/-- A task as seen by `MissionSimulator.calculate_task_priority`. -/
structure STask where
  task_type : String
  duration_hours : ℚ
  urgency : ℚ
  reward : ℚ

/-- `MissionSimulator.calculate_task_priority`: the three-term cost
`lambda1 * energy + lambda2 * (1 / max(urgency, 0.1)) + lambda3 * reward`
with lambda1 = 1, lambda2 = 1/2, lambda3 = -2; fails when the task energy
computation fails. -/
def calculate_task_priority (t : STask) : Option ℚ :=
  (calculate_task_energy t.task_type t.duration_hours).map
    (fun energy_cost =>
      1 * energy_cost + (1/2) * (1 / max t.urgency (1/10)) + (-2) * t.reward)

/-- Counterexample to claim C5 as stated: for an imaging task of 1 hour
(energy 0.03 kWh), urgency 5, reward 1, `MissionSimulator`'s priority is
-187/100, while the full five-term cost of the same parameters is
-5561/300 — the simulator implementation of the primary policy does not
compute the five-term cost (it omits the efficiency bonus and the urgency
step term). -/
theorem simulator_cost_lacks_terms :
    calculate_task_energy ("imaging") 1 = some (3/100) ∧
      calculate_task_priority ⟨("imaging"), 1, 5, 1⟩ = some (-(187/100)) ∧
      priority_cost ⟨1, 5, 1, 30, 3/100⟩ = -(5561/300) ∧
      (-(187/100) : ℚ) ≠ -(5561/300) := by
  have h : TASK_POWER ("imaging") = some 30 := rfl
  refine ⟨?_, ?_, ?_, by norm_num⟩
  · simp only [calculate_task_energy, h]
    norm_num
  · simp only [calculate_task_priority, calculate_task_energy, h,
      Option.map_some']
    norm_num [max_def]
  · norm_num [priority_cost, max_def]

/-- Claim C5, corrected: the `simple_validation` implementation of the
primary policy orders any task list ascending by the full five-term
composite cost with stable ties (the result is a permutation of the input,
sorted by `priority_cost`), but the `MissionSimulator` implementation
computes only the three-term cost
`1·energy + 0.5·(1/max(urgency, 0.1)) − 2·reward`. -/
theorem primary_policy_orders_by_cost (tasks : List VTask) :
    (our_prioritization_scheduler tasks).Perm tasks ∧
      (our_prioritization_scheduler tasks).Sorted costLE ∧
      ∀ (t : STask) (e : ℚ),
        calculate_task_energy t.task_type t.duration_hours = some e →
        calculate_task_priority t =
          some (1 * e + (1/2) * (1 / max t.urgency (1/10)) +
            (-2) * t.reward) := by
  refine ⟨List.perm_insertionSort costLE tasks,
    List.sorted_insertionSort costLE tasks, ?_⟩
  intro t e he
  simp [calculate_task_priority, he]

/-- Witness for `primary_policy_orders_by_cost`: a drilling task of 2 hours
has energy 0.24 kWh, and the simulator's priority is the three-term value at
that energy. -/
theorem primary_policy_orders_by_cost_witness :
    calculate_task_priority ⟨("drilling"), 2, 8, 10⟩ =
      some (1 * (24/100) + (1/2) * (1 / max 8 (1/10)) + (-2) * 10) :=
  (primary_policy_orders_by_cost []).2.2 ⟨("drilling"), 2, 8, 10⟩ (24/100)
    (by
      have h : TASK_POWER ("drilling") = some 120 := rfl
      simp only [calculate_task_energy, h]
      norm_num)

/-! ### Scenario generation (`SimpleValidator.generate_random_scenario`)

The random draws of one scenario are the per-task tuples (type index,
duration, urgency, reward).  `random.randint(1, 6)` always yields a valid
key of the harness's power map `{1: 50, 2: 80, 3: 120, 4: 30, 5: 45,
6: 25}`, so the drawn index is modelled as `Fin 6` (0-based: index k stands
for the Python key k+1). -/

structure Draw where
  ti : Fin 6
  duration : ℚ
  urgency : ℚ
  reward : ℚ
deriving DecidableEq

/-- The harness power map, 0-based. -/
def power_map_at : Fin 6 → ℚ
  | 0 => 50
  | 1 => 80
  | 2 => 120
  | 3 => 30
  | 4 => 45
  | 5 => 25

/-- Task synthesis inside the generation loop:
`energy = power * duration / 1000`. -/
def mk_task (d : Draw) : VTask :=
  { duration := d.duration, urgency := d.urgency, reward := d.reward,
    power := power_map_at d.ti,
    energy := power_map_at d.ti * d.duration / 1000 }

/-- `SimpleValidator.generate_random_scenario` after the draws: builds the
tasks, and if their total energy does not exceed twice the usable energy,
rescales every task's energy and duration by the single scenario-wide factor
`usable * 3 / max(total, 0.1)`. -/
def generate_scenario_tasks (energy_level : ℚ) (draws : List Draw) :
    List VTask :=
  let tasks := draws.map mk_task
  let total_task_energy := (tasks.map (fun t => t.energy)).sum
  if total_task_energy ≤ usable_energy energy_level * 2 then
    let scale_factor := usable_energy energy_level * 3 /
      max total_task_energy (1/10)
    tasks.map (fun t =>
      { t with energy := t.energy * scale_factor,
               duration := t.duration * scale_factor })
  else tasks

/-- Every entry of the harness power map is at least 25 W. -/
theorem power_map_at_ge (i : Fin 6) : 25 ≤ power_map_at i := by
  fin_cases i <;> norm_num [power_map_at]

/-- A list of rationals bounded below termwise is bounded below by
`bound * length`. -/
theorem le_sum_of_forall_le (l : List ℚ) (c : ℚ)
    (h : ∀ x ∈ l, c ≤ x) : c * l.length ≤ l.sum := by
  induction l with
  | nil => simp
  | cons x l ih =>
    have hx := h x (List.mem_cons_self x l)
    have hl := ih fun y hy => h y (List.mem_cons_of_mem x hy)
    simp only [List.sum_cons, List.length_cons]
    push_cast
    nlinarith [hl, hx]

/-- Rescaling every task's energy by a common factor rescales the energy
sum by that factor. -/
theorem sum_energy_rescale (c : ℚ) (l : List VTask) :
    ((l.map (fun t =>
      ({ t with energy := t.energy * c, duration := t.duration * c } :
        VTask))).map (fun t => t.energy)).sum =
    (l.map (fun t => t.energy)).sum * c := by
  induction l with
  | nil => simp
  | cons t l ih =>
    simp only [List.map_cons, List.sum_cons, ih]
    ring

/-- Claim C7: for every scenario the generator can produce — energy level of
at least 5%, at least 12 tasks, every drawn duration at least 1 hour (the
generator draws level ∈ [0.05, 0.2), 12–25 tasks, durations ∈ [1, 7)) — the
total task energy after the forced-rescaling step strictly exceeds the
scenario's usable energy, so no generated scenario is trivially feasible
for all of its tasks. -/
theorem scenario_energy_exceeds_usable (energy_level : ℚ) (draws : List Draw)
    (hl : 1/20 ≤ energy_level)
    (hd : ∀ d ∈ draws, 1 ≤ d.duration)
    (hn : 12 ≤ draws.length) :
    usable_energy energy_level <
      ((generate_scenario_tasks energy_level draws).map
        (fun t => t.energy)).sum := by
  have havail : (2051/1000 : ℚ) ≤
      battery_capacity * energy_level - terrain_energy := by
    have hcap := mul_le_mul_of_nonneg_left hl
      (by norm_num [battery_capacity] : (0:ℚ) ≤ battery_capacity)
    norm_num [battery_capacity] at hcap
    norm_num [battery_capacity, terrain_energy]
    linarith
  have hu : 0 < usable_energy energy_level := by
    simp only [usable_energy]
    have h2 : 0 < (battery_capacity * energy_level - terrain_energy) -
        (battery_capacity * energy_level - terrain_energy) *
          reserve_fraction := by
      simp only [reserve_fraction]
      linarith
    exact lt_of_lt_of_le h2 (le_max_right 0 _)
  have htotal : (3/10 : ℚ) ≤
      (((draws.map mk_task)).map (fun t => t.energy)).sum := by
    have hbound : ∀ x ∈ (draws.map mk_task).map (fun t => t.energy),
        (1/40 : ℚ) ≤ x := by
      intro x hx
      simp only [List.map_map, List.mem_map, Function.comp] at hx
      obtain ⟨d, hd', rfl⟩ := hx
      have hp := power_map_at_ge d.ti
      have hdur := hd d hd'
      simp only [mk_task]
      have hpd : (25:ℚ) ≤ power_map_at d.ti * d.duration := by nlinarith
      linarith
    have hlen : (12 : ℚ) ≤
        ((((draws.map mk_task)).map (fun t => t.energy)).length : ℚ) := by
      simp only [List.length_map]
      exact_mod_cast hn
    have hs := le_sum_of_forall_le _ (1/40) hbound
    linarith
  have hne : (((draws.map mk_task)).map (fun t => t.energy)).sum ≠ 0 := by
    intro h0
    rw [h0] at htotal
    norm_num at htotal
  have hmax : max (((draws.map mk_task)).map (fun t => t.energy)).sum
      (1/10 : ℚ) = (((draws.map mk_task)).map (fun t => t.energy)).sum :=
    max_eq_left (by linarith)
  by_cases hcase : (((draws.map mk_task)).map (fun t => t.energy)).sum ≤
      usable_energy energy_level * 2
  · simp only [generate_scenario_tasks]
    rw [if_pos hcase,
      sum_energy_rescale
        (usable_energy energy_level * 3 /
          max (((draws.map mk_task)).map (fun t => t.energy)).sum (1/10))
        (draws.map mk_task),
      hmax, mul_comm, div_mul_cancel₀ _ hne]
    linarith
  · simp only [generate_scenario_tasks]
    rw [if_neg hcase]
    have h2u := lt_of_not_le hcase
    linarith

/-- Witness for `scenario_energy_exceeds_usable`: energy level 10%, twelve
identical one-hour navigation-type draws. -/
theorem scenario_energy_exceeds_usable_witness :
    usable_energy (1/10) <
      ((generate_scenario_tasks (1/10)
        (List.replicate 12 ⟨0, 1, 1, 1⟩)).map (fun t => t.energy)).sum :=
  scenario_energy_exceeds_usable (1/10) (List.replicate 12 ⟨0, 1, 1, 1⟩)
    (by norm_num)
    (fun d hd => by rw [List.eq_of_mem_replicate hd])
    (by simp)

/-- Counterexample to claim C4 as stated: a non-positive duration is not
rejected — for the known type imaging and duration −1 the cost computation
succeeds and returns −0.03 kWh. -/
theorem task_energy_accepts_nonpositive_duration :
    (-1 : ℚ) ≤ 0 ∧
      calculate_task_energy ("imaging") (-1) = some (-(3/100)) := by
  have h : TASK_POWER ("imaging") = some 30 := rfl
  refine ⟨by norm_num, ?_⟩
  simp only [calculate_task_energy, h]
  norm_num

/-- Claim C4, corrected: the task energy-cost computation is rejected if and
only if the task type is absent from the configuration's power mapping; a
non-positive duration is not validated — for any known type the computation
returns `power * duration / 1000` without error, whatever the sign of the
duration. -/
theorem task_energy_rejects_only_unknown_type (t : String) (d : ℚ) :
    (calculate_task_energy t d = none ↔ TASK_POWER t = none) ∧
      ∀ p, TASK_POWER t = some p →
        calculate_task_energy t d = some (p * d / 1000) := by
  constructor
  · cases h : TASK_POWER t with
    | none => simp [calculate_task_energy, h]
    | some p => simp [calculate_task_energy, h]
  · intro p hp
    simp [calculate_task_energy, hp]

/-- Witness for `task_energy_rejects_only_unknown_type`: an unknown task
type is rejected at cost-computation time. -/
theorem task_energy_rejects_only_unknown_type_witness :
    calculate_task_energy ("bogus") 1 = none :=
  (task_energy_rejects_only_unknown_type ("bogus") 1).1.mpr rfl

/-! ### EnergyModel terrain physics (`models/energy_model.py`)

The trigonometric formulas over ℝ.  `math.radians(x) = x * π / 180`. -/

noncomputable def radians (deg : ℝ) : ℝ := deg * (Real.pi / 180)

/-- `EnergyModel.calculate_slope_force`. -/
noncomputable def calculate_slope_force (slope_degrees mass : ℝ) : ℝ :=
  mass * GRAVITY_MARS * Real.sin (radians slope_degrees)

/-- `EnergyModel.calculate_rolling_resistance`:
`μ * (mass * g * cos(radians slope))`. -/
noncomputable def calculate_rolling_resistance (mass slope_degrees : ℝ) : ℝ :=
  ROLLING_RESISTANCE_COEFF *
    (mass * GRAVITY_MARS * Real.cos (radians slope_degrees))

/-- `EnergyModel.calculate_roughness_penalty`. -/
noncomputable def calculate_roughness_penalty (roughness velocity : ℝ) : ℝ :=
  roughness * velocity * 50.0

/-- `EnergyModel.calculate_power_consumption`. -/
noncomputable def calculate_power_consumption
    (slope_degrees velocity roughness mass : ℝ) : ℝ :=
  let slope_force := calculate_slope_force slope_degrees mass
  let rolling := calculate_rolling_resistance mass slope_degrees
  let total_force := |slope_force| + rolling
  let mechanical_power := total_force * velocity
  let roughness_penalty := calculate_roughness_penalty roughness velocity
  (mechanical_power + roughness_penalty) /
    (MOTOR_EFFICIENCY * DRIVETRAIN_EFFICIENCY)

/-- The structured breakdown returned by
`EnergyModel.calculate_energy_consumption`. -/
structure EnergyBreakdown where
  distance_m : ℝ
  time_hours : ℝ
  power_watts : ℝ
  energy_kwh : ℝ
  slope_degrees : ℝ
  velocity_ms : ℝ
  roughness : ℝ

/-- `EnergyModel.calculate_energy_consumption`: raises `ValueError` when
`velocity <= 0`; otherwise `time = distance / (velocity * 3600)` hours and
`energy = power * time / 1000` kWh. -/
noncomputable def calculate_energy_consumption
    (distance slope_degrees velocity roughness mass : ℝ) :
    Option EnergyBreakdown :=
  if velocity ≤ 0 then none
  else
    let time_hours := distance / (velocity * 3600)
    let power_watts :=
      calculate_power_consumption slope_degrees velocity roughness mass
    let energy_kwh := power_watts * time_hours / 1000
    some ⟨distance, time_hours, power_watts, energy_kwh, slope_degrees,
      velocity, roughness⟩

/-- Claim C6: the segment energy computation fails iff velocity ≤ 0, for
every distance, slope, roughness and mass; for positive velocity the
returned breakdown has `time = distance / (velocity * 3600)` and
`energy = power * time / 1000`. -/
theorem energy_consumption_formulas (d s v r m : ℝ) :
    (calculate_energy_consumption d s v r m = none ↔ v ≤ 0) ∧
      ∀ bd, calculate_energy_consumption d s v r m = some bd →
        bd.time_hours = d / (v * 3600) ∧
          bd.energy_kwh = bd.power_watts * bd.time_hours / 1000 := by
  unfold calculate_energy_consumption
  by_cases h : v ≤ 0
  · rw [if_pos h]
    exact ⟨⟨fun _ => h, fun _ => rfl⟩, fun bd hbd => by cases hbd⟩
  · rw [if_neg h]
    refine ⟨⟨fun hnone => absurd hnone (Option.some_ne_none _),
      fun hv => absurd hv h⟩, ?_⟩
    intro bd hbd
    injection hbd with hbd'
    subst hbd'
    exact ⟨rfl, rfl⟩

/-- Witness for `energy_consumption_formulas`: at velocity 0 the
computation fails. -/
theorem energy_consumption_formulas_witness :
    calculate_energy_consumption 1 0 0 0 1 = none :=
  (energy_consumption_formulas 1 0 0 0 1).1.mpr le_rfl

/-- Counterexample to claim C8 as stated: at slope 180° (allowed by the
claim's "any sign, no stated bound") and mass 1 kg the rolling resistance is
`0.15 * 3.71 * cos π = -0.5565 < 0` — it is not always non-negative. -/
theorem rolling_resistance_negative_beyond_90 :
    calculate_rolling_resistance 1 180 < 0 := by
  have h : radians 180 = Real.pi := by
    unfold radians
    ring
  unfold calculate_rolling_resistance
  rw [h, Real.cos_pi]
  norm_num [ROLLING_RESISTANCE_COEFF, GRAVITY_MARS]

/-- Claim C8, corrected: for every positive mass,
`calculate_rolling_resistance` equals `μ * mass * g * cos(radians slope)`
for every slope, and it is non-negative for slopes in [−90°, 90°] (the
cosine can be negative beyond that range). -/
theorem rolling_resistance_formula_nonneg (mass slope_degrees : ℝ)
    (hm : 0 < mass) (h1 : -90 ≤ slope_degrees) (h2 : slope_degrees ≤ 90) :
    calculate_rolling_resistance mass slope_degrees =
        ROLLING_RESISTANCE_COEFF *
          (mass * GRAVITY_MARS * Real.cos (radians slope_degrees)) ∧
      0 ≤ calculate_rolling_resistance mass slope_degrees := by
  refine ⟨rfl, ?_⟩
  have hπ := Real.pi_pos
  have hcos : 0 ≤ Real.cos (radians slope_degrees) := by
    apply Real.cos_nonneg_of_neg_pi_div_two_le_of_le
    · have k1 : 0 ≤ (slope_degrees + 90) * Real.pi :=
        mul_nonneg (by linarith) hπ.le
      unfold radians
      nlinarith [k1]
    · have k2 : 0 ≤ (90 - slope_degrees) * Real.pi :=
        mul_nonneg (by linarith) hπ.le
      unfold radians
      nlinarith [k2]
  unfold calculate_rolling_resistance
  exact mul_nonneg (by norm_num [ROLLING_RESISTANCE_COEFF])
    (mul_nonneg (mul_nonneg hm.le (by norm_num [GRAVITY_MARS])) hcos)

/-- Witness for `rolling_resistance_formula_nonneg` at mass 1, slope 0. -/
theorem rolling_resistance_formula_nonneg_witness :
    0 ≤ calculate_rolling_resistance 1 0 :=
  (rolling_resistance_formula_nonneg 1 0 (by norm_num) (by norm_num)
    (by norm_num)).2

/-! ### Cohen's d (`SimpleValidator.calculate_cohens_d`)

`statistics.mean` and `statistics.variance` (sample variance, denominator
n − 1); the source returns variance 0 for singleton samples and d = 0 for
empty samples or zero pooled standard deviation. -/

noncomputable def sampleMean (l : List ℝ) : ℝ := l.sum / l.length

noncomputable def sampleVariance (l : List ℝ) : ℝ :=
  ((l.map (fun x => (x - sampleMean l) ^ 2)).sum) / (l.length - 1)

noncomputable def varianceOrZero (l : List ℝ) : ℝ :=
  if l.length = 1 then 0 else sampleVariance l

noncomputable def pooled_std (g1 g2 : List ℝ) : ℝ :=
  Real.sqrt ((varianceOrZero g1 + varianceOrZero g2) / 2)

/-- `SimpleValidator.calculate_cohens_d`. -/
noncomputable def calculate_cohens_d (g1 g2 : List ℝ) : ℝ :=
  if g1.length = 0 ∨ g2.length = 0 then 0
  else if pooled_std g1 g2 = 0 then 0
  else (sampleMean g1 - sampleMean g2) / pooled_std g1 g2

/-- Claim C9: for non-empty sample lists, Cohen's d is
`(mean₁ − mean₂) / sqrt((var₁ + var₂)/2)`, is 0 whenever the pooled
standard deviation is 0, and is exactly 0 whenever the two lists are
numerically identical. -/
theorem cohens_d_characterization (g1 g2 : List ℝ)
    (h1 : g1 ≠ []) (h2 : g2 ≠ []) :
    (pooled_std g1 g2 = 0 → calculate_cohens_d g1 g2 = 0) ∧
      (pooled_std g1 g2 ≠ 0 →
        calculate_cohens_d g1 g2 =
          (sampleMean g1 - sampleMean g2) / pooled_std g1 g2) ∧
      (g1 = g2 → calculate_cohens_d g1 g2 = 0) := by
  have hl1 : g1.length ≠ 0 := fun h => h1 (List.length_eq_zero.mp h)
  have hl2 : g2.length ≠ 0 := fun h => h2 (List.length_eq_zero.mp h)
  have hcond : ¬ (g1.length = 0 ∨ g2.length = 0) := not_or.mpr ⟨hl1, hl2⟩
  refine ⟨?_, ?_, ?_⟩
  · intro hp
    simp only [calculate_cohens_d, if_neg hcond, if_pos hp]
  · intro hp
    simp only [calculate_cohens_d, if_neg hcond, if_neg hp]
  · intro heq
    subst heq
    by_cases hp : pooled_std g1 g1 = 0
    · simp only [calculate_cohens_d, if_neg hcond, if_pos hp]
    · simp only [calculate_cohens_d, if_neg hcond, if_neg hp, sub_self,
        zero_div]

/-- Witness for `cohens_d_characterization`: identical two-element samples
give d = 0. -/
theorem cohens_d_characterization_witness :
    calculate_cohens_d [1, 2] [1, 2] = 0 :=
  (cohens_d_characterization [1, 2] [1, 2] (by simp) (by simp)).2.2 rfl
